import Mathlib

/-!
Shallow embedding of `drivers/net/ovpn-dco/udp.c` (OpenVPN data channel
accelerator, UDP transport shim) and proofs about its ingress demultiplexer
(`ovpn_udp_encap_recv`), egress transmitter (`ovpn_udp_send_skb` with
`ovpn_udp_output` / `ovpn_udp4_output` / `ovpn_udp6_output`) and socket
binding manager (`ovpn_udp_socket_attach`).

External collaborators (peer directory, tunnel receive pipeline, routing
subsystem, keepalive) are modelled as environment parameters; every call the
C code makes into a collaborator, every `kfree_skb`, and every diagnostic is
recorded in an explicit trace so that ownership and side-effect claims can be
stated.  Machine integers that matter here are small enumerations and ids,
modelled as `Nat`; return codes are modelled as `Int` (negative errno).
-/

namespace OvpnDco

/-- Linux error numbers used by udp.c (asm-generic/errno values). -/
def EINVAL : Int := 22
def EBUSY : Int := 16
def EALREADY : Int := 114
def EHOSTUNREACH : Int := 113
def EAFNOSUPPORT : Int := 97

/-- Embeds `IPPROTO_UDP` -/
def IPPROTO_UDP : Nat := 17
/-- Embeds `AF_INET` -/
def AF_INET : Nat := 2
/-- Embeds `AF_INET6` -/
def AF_INET6 : Nat := 10

/-- Embeds `sizeof(struct udphdr)` = 8 bytes. -/
def udphdrSize : Nat := 8

/-- A received datagram buffer: the linear bytes starting at the UDP header
(the transport header is still present when `encap_recv` is entered). -/
structure Skb where
  data : List Nat
  deriving Repr, DecidableEq

/-- Embeds `pskb_may_pull(skb, n)`: the first `n` bytes of the buffer are present
and accessible.  Modelled on linear data as a length check. -/
def pskb_may_pull (skb : Skb) (n : Nat) : Bool :=
  n ≤ skb.data.length

/-- Embeds `__skb_pull(skb, n)`: advance the data pointer past the first `n` bytes. -/
def __skb_pull (skb : Skb) (n : Nat) : Skb :=
  ⟨skb.data.drop n⟩

/-- Embeds `OVPN_DATA_V2` opcode (tunnel data v2). -/
def OVPN_DATA_V2 : Nat := 9

/-- Modelled from the spec: `ovpn_opcode_from_skb` lives in proto.h, which is
not under src/.  The spec fixes only that the opcode is read from the 4-byte
prefix that follows the transport header and that the bit layout belongs to
the protocol collaborator; we model it as the high 5 bits of the first
prefix byte. -/
def ovpn_opcode_from_skb (skb : Skb) (off : Nat) : Nat :=
  skb.data.getD off 0 / 8

/-- Modelled from the spec: `ovpn_peer_id_from_skb` lives in proto.h, which is
not under src/.  The peer identifier is read from the same 4-byte prefix;
we model it as the low 24 bits of the big-endian 32-bit prefix word. -/
def ovpn_peer_id_from_skb (skb : Skb) (off : Nat) : Nat :=
  skb.data.getD (off + 1) 0 * 65536 + skb.data.getD (off + 2) 0 * 256 +
    skb.data.getD (off + 3) 0

/-- Diagnostics emitted by udp.c (`pr_err_ratelimited`, `pr_debug...`). -/
inductive Diag
  | noOvpnObject
  | packetTooSmall
  | dataFromUnknownPeer
  | controlFromUnknownPeer
  | cannotHandlePacket
  | noSockForPeer
  | noBindForPeer
  | noRouteToHost
  deriving Repr, DecidableEq

/-- Environment of one `ovpn_udp_encap_recv` invocation: what each external
collaborator would answer.  Peer handles are modelled as `Nat`.
`recvStatus` is the tri-state status the tunnel receive pipeline
(`ovpn_recv`, external collaborator per spec §6) returns for a given peer
handle and (header-stripped) buffer. -/
structure RecvEnv where
  /-- Embeds `ovpn_from_udp_sock(sk)`: the device context bound to the socket. -/
  ovpnObj : Option Nat
  /-- Embeds `ovpn_peer_lookup_id`: peer directory lookup by numeric identifier. -/
  lookupId : Nat → Option Nat
  /-- Embeds `ovpn_peer_lookup_transp_addr`: lookup by the datagram's source
  transport address (fixed for the one datagram of this invocation). -/
  lookupTransp : Option Nat
  /-- status returned by `ovpn_recv(ovpn, peer, skb)`. -/
  recvStatus : Nat → Skb → Int

/-- Trace of one `ovpn_udp_encap_recv` invocation: every collaborator call,
buffer free and diagnostic, the return value, and the buffer contents as the
caller would observe them at return. -/
structure RecvTrace where
  /-- arguments of `ovpn_peer_lookup_id` calls. -/
  idLookups : List Nat
  /-- number of `ovpn_peer_lookup_transp_addr` calls. -/
  transpLookups : Nat
  /-- peer handles successfully obtained from the directory (lookups that
  returned a handle, i.e. reference-count increments). -/
  peerGets : List Nat
  /-- peer handles passed to `ovpn_peer_put` (explicit releases). -/
  peerPuts : List Nat
  /-- Embeds `ovpn_recv` invocations: peer handle and the buffer handed over. -/
  recvCalls : List (Nat × Skb)
  /-- number of `kfree_skb` calls performed by this function. -/
  frees : Nat
  /-- diagnostics emitted. -/
  logs : List Diag
  /-- return value (0 consumed, >0 deliver as UDP, <0 resubmit as proto -N). -/
  ret : Int
  /-- the buffer as left at return (meaningful to the caller only when not
  freed and not handed off). -/
  skbFinal : Skb
  deriving Repr

/-- Tail of `ovpn_udp_encap_recv` once a peer handle is held: pop the outer
UDP header, call `ovpn_recv`; a negative status goes to `drop` (put the
peer, free the buffer, return 0), otherwise the status is returned as is. -/
def ovpn_recv_tail (env : RecvEnv) (skb : Skb) (idLookups : List Nat)
    (transpLookups : Nat) (peer : Nat) : RecvTrace :=
  let skb2 := __skb_pull skb udphdrSize
  let ret := env.recvStatus peer skb2
  if ret < 0 then
    { idLookups := idLookups, transpLookups := transpLookups,
      peerGets := [peer], peerPuts := [peer], recvCalls := [(peer, skb2)],
      frees := 1, logs := [Diag.cannotHandlePacket], ret := 0,
      skbFinal := skb2 }
  else
    { idLookups := idLookups, transpLookups := transpLookups,
      peerGets := [peer], peerPuts := [], recvCalls := [(peer, skb2)],
      frees := 0, logs := [], ret := ret, skbFinal := skb2 }

/-- Embeds `ovpn_udp_encap_recv(sk, skb)` from udp.c, lines 39–96, as a trace
function over the collaborator environment. -/
def ovpn_udp_encap_recv (env : RecvEnv) (skb : Skb) : RecvTrace :=
  match env.ovpnObj with
  | none =>
      { idLookups := [], transpLookups := 0, peerGets := [], peerPuts := [],
        recvCalls := [], frees := 1, logs := [Diag.noOvpnObject], ret := 0,
        skbFinal := skb }
  | some _ =>
      if ¬ pskb_may_pull skb (udphdrSize + 4) then
        { idLookups := [], transpLookups := 0, peerGets := [], peerPuts := [],
          recvCalls := [], frees := 1, logs := [Diag.packetTooSmall], ret := 0,
          skbFinal := skb }
      else if ovpn_opcode_from_skb skb udphdrSize = OVPN_DATA_V2 then
        let peer_id := ovpn_peer_id_from_skb skb udphdrSize
        match env.lookupId peer_id with
        | none =>
            { idLookups := [peer_id], transpLookups := 0, peerGets := [],
              peerPuts := [], recvCalls := [], frees := 1,
              logs := [Diag.dataFromUnknownPeer], ret := 0, skbFinal := skb }
        | some peer => ovpn_recv_tail env skb [peer_id] 0 peer
      else
        match env.lookupTransp with
        | none =>
            { idLookups := [], transpLookups := 1, peerGets := [],
              peerPuts := [], recvCalls := [], frees := 0,
              logs := [Diag.controlFromUnknownPeer], ret := 1,
              skbFinal := skb }
        | some peer => ovpn_recv_tail env skb [] 1 peer

/-! ### Egress transmitter: `ovpn_udp_send_skb` and the output routines -/

/-- Embeds `CHECKSUM_NONE` -/
def CHECKSUM_NONE : Nat := 0

/-- The fields of `struct sock` that udp.c reads on the egress path. -/
structure Sock where
  sport : Nat
  protocol : Nat
  mark : Nat
  boundDevIf : Nat
  noCheckTx : Bool
  deriving Repr, DecidableEq

/-- Embeds `struct ovpn_bind`: the peer's current remote transport address.
`family` is `sa.in4.sin_family` (which aliases `sa.in6.sin6_family`);
`daddr`/`dport` are the remote address and port of whichever family;
`scopeId` is `sa.in6.sin6_scope_id` (used as the IPv6 output interface). -/
structure Bind where
  family : Nat
  daddr : Nat
  dport : Nat
  scopeId : Nat
  deriving Repr, DecidableEq

/-- The outbound datagram: the `sk_buff` fields udp.c touches on egress. -/
structure EgressSkb where
  dev : Option Nat
  ip_summed : Nat
  hasDestructor : Bool
  sk : Option Nat
  deriving Repr, DecidableEq

/-- One call of the platform transmit primitive
(`udp_tunnel_xmit_skb` / `udp_tunnel6_xmit_skb`), with the flow fields it
was given; the primitive consumes the datagram. -/
structure Transmit where
  family : Nat
  rt : Nat
  saddr : Nat
  daddr : Nat
  sport : Nat
  dport : Nat
  skb : EgressSkb
  deriving Repr, DecidableEq

/-- Environment of one `ovpn_udp_send_skb` invocation: the peer's socket and
binding, and what the route-cache and routing collaborators would answer.
Cache entries and fresh lookups pair a route handle with the source address
it was derived from. -/
structure SendEnv where
  /-- Embeds `ovpn->dev`. -/
  devId : Nat
  /-- Embeds `peer->sock->sock` (`none` models a NULL socket). -/
  peerSock : Option Sock
  /-- Embeds `rcu_dereference(peer->bind)`. -/
  peerBind : Option Bind
  /-- Embeds `dst_cache_get_ip4(&peer->dst_cache, &fl.saddr)`: cached route and the
  recorded source address, if an entry exists. -/
  cached4 : Option (Nat × Nat)
  /-- Embeds `inet_confirm_addr(net, NULL, 0, saddr, RT_SCOPE_HOST)`: is this source
  address still assignable locally. -/
  confirm4 : Nat → Bool
  /-- Embeds `ip_route_output_flow`: fresh route and the source address it resolves,
  or an error. -/
  route4 : Except Int (Nat × Nat)
  /-- Embeds `dst_cache_get_ip6`. -/
  cached6 : Option (Nat × Nat)
  /-- Embeds `ipv6_chk_addr(net, &saddr, NULL, 0)`. -/
  chkAddr6 : Nat → Bool
  /-- Embeds `ipv6_stub->ipv6_dst_lookup_flow`, or its error (`PTR_ERR`). -/
  route6 : Except Int (Nat × Nat)

/-- Trace of an address-family output routine. -/
structure OutTrace where
  /-- number of `dst_cache_reset` calls. -/
  cacheResets : Nat
  /-- Embeds `dst_cache_set_ip4/ip6` calls: route stored and the source address it
  is keyed by. -/
  cacheSets : List (Nat × Nat)
  /-- transmit-primitive calls. -/
  transmits : List Transmit
  /-- diagnostics emitted. -/
  logs : List Diag
  /-- return value. -/
  ret : Int
  deriving Repr

/-- The cache-miss continuation of `ovpn_udp4_output` (udp.c lines 119–128
followed by the shared `transmit:` label): reset the source address and the
cache, do a fresh `ip_route_output_flow`; failure is reported as
`-EHOSTUNREACH`, success caches the new route keyed by the resolved source
address and transmits. -/
def ovpn_udp4_slow (env : SendEnv) (bind : Bind) (sk : Sock)
    (skb : EgressSkb) : OutTrace :=
  match env.route4 with
  | .error _ =>
      { cacheResets := 1, cacheSets := [], transmits := [],
        logs := [Diag.noRouteToHost], ret := -EHOSTUNREACH }
  | .ok (rt, saddr) =>
      { cacheResets := 1, cacheSets := [(rt, saddr)],
        transmits := [⟨AF_INET, rt, saddr, bind.daddr, sk.sport, bind.dport,
                       skb⟩],
        logs := [], ret := 0 }

/-- Embeds `ovpn_udp4_output` (udp.c lines 98–135): try the cached route; it is used
only if present and its recorded source address is still confirmed locally
assignable, otherwise fall to the fresh-lookup path. -/
def ovpn_udp4_output (env : SendEnv) (bind : Bind) (sk : Sock)
    (skb : EgressSkb) : OutTrace :=
  match env.cached4 with
  | some (rt, saddr) =>
      if env.confirm4 saddr then
        { cacheResets := 0, cacheSets := [],
          transmits := [⟨AF_INET, rt, saddr, bind.daddr, sk.sport, bind.dport,
                         skb⟩],
          logs := [], ret := 0 }
      else ovpn_udp4_slow env bind sk skb
  | none => ovpn_udp4_slow env bind sk skb

/-- The cache-miss continuation of `ovpn_udp6_output` (udp.c lines 161–169
followed by the shared `transmit:` label); a lookup failure propagates the
underlying error code. -/
def ovpn_udp6_slow (env : SendEnv) (bind : Bind) (sk : Sock)
    (skb : EgressSkb) : OutTrace :=
  match env.route6 with
  | .error e =>
      { cacheResets := 1, cacheSets := [], transmits := [], logs := [],
        ret := e }
  | .ok (dst, saddr) =>
      { cacheResets := 1, cacheSets := [(dst, saddr)],
        transmits := [⟨AF_INET6, dst, saddr, bind.daddr, sk.sport, bind.dport,
                       skb⟩],
        logs := [], ret := 0 }

/-- Embeds `ovpn_udp6_output` (udp.c lines 138–176, compiled when CONFIG_IPV6). -/
def ovpn_udp6_output (env : SendEnv) (bind : Bind) (sk : Sock)
    (skb : EgressSkb) : OutTrace :=
  match env.cached6 with
  | some (dst, saddr) =>
      if env.chkAddr6 saddr then
        { cacheResets := 0, cacheSets := [],
          transmits := [⟨AF_INET6, dst, saddr, bind.daddr, sk.sport,
                         bind.dport, skb⟩],
          logs := [], ret := 0 }
      else ovpn_udp6_slow env bind sk skb
  | none => ovpn_udp6_slow env bind sk skb

/-- Embeds `ovpn_udp_output` (udp.c lines 184–211): orphan handling then dispatch on
the binding's address family; an unknown family yields `-EAFNOSUPPORT` with
no transmission attempt. -/
def ovpn_udp_output (env : SendEnv) (bind : Bind) (sk : Sock)
    (skb : EgressSkb) : OutTrace :=
  let skb1 := if ¬ skb.hasDestructor then { skb with sk := none } else skb
  if bind.family = AF_INET then ovpn_udp4_output env bind sk skb1
  else if bind.family = AF_INET6 then ovpn_udp6_output env bind sk skb1
  else
    { cacheResets := 0, cacheSets := [], transmits := [], logs := [],
      ret := -EAFNOSUPPORT }

/-- Trace of one `ovpn_udp_send_skb` invocation. -/
structure SendTrace where
  /-- Embeds `ovpn_peer_keepalive_xmit_reset` calls. -/
  keepaliveResets : Nat
  cacheResets : Nat
  cacheSets : List (Nat × Nat)
  transmits : List Transmit
  /-- Embeds `kfree_skb` calls performed by `ovpn_udp_send_skb` itself. -/
  frees : Nat
  logs : List Diag
  /-- the final value of the local `ret` (the function itself returns void). -/
  ret : Int
  /-- peer-directory calls (lookups or puts) made on this path;
  `ovpn_udp_send_skb` makes none, the field makes that checkable. -/
  peerDirOps : Nat
  deriving Repr

/-- Embeds `ovpn_udp_send_skb` (udp.c lines 216–253): set device and checksum mode,
require a socket and a binding (else drop with `ret = -1`), record the
keepalive transmit event, dispatch to `ovpn_udp_output`, and free the
datagram whenever the final `ret` is negative. -/
def ovpn_udp_send_skb (env : SendEnv) (skb : EgressSkb) : SendTrace :=
  let skb1 := { skb with dev := some env.devId, ip_summed := CHECKSUM_NONE }
  match env.peerSock with
  | none =>
      { keepaliveResets := 0, cacheResets := 0, cacheSets := [],
        transmits := [], frees := 1, logs := [Diag.noSockForPeer], ret := -1,
        peerDirOps := 0 }
  | some sk =>
      match env.peerBind with
      | none =>
          { keepaliveResets := 0, cacheResets := 0, cacheSets := [],
            transmits := [], frees := 1, logs := [Diag.noBindForPeer],
            ret := -1, peerDirOps := 0 }
      | some bind =>
          let out := ovpn_udp_output env bind sk skb1
          { keepaliveResets := 1, cacheResets := out.cacheResets,
            cacheSets := out.cacheSets, transmits := out.transmits,
            frees := if out.ret < 0 then 1 else 0, logs := out.logs,
            ret := out.ret, peerDirOps := 0 }

/-! ### Socket binding manager: `ovpn_udp_socket_attach` -/

/-- The state of a raw socket as the binding manager sees it.  `userData`
models the `sk_user_data` ownership token: the C code stores/reads a pointer
whose `->ovpn` field names the owning device context, so the token is
modelled as that device context's identity; `none` means unclaimed.
`encapRecvInstalled` records whether the `encap_rcv` callback is set
(installed together with the token by `setup_udp_tunnel_sock`). -/
structure SockState where
  protocol : Nat
  userData : Option Nat
  encapRecvInstalled : Bool
  deriving Repr, DecidableEq

/-- Embeds `ovpn_udp_socket_attach` (udp.c lines 256–288): returns the error code
(0 on success) and the resulting socket state.  Non-UDP socket →
`-EINVAL`; token present and naming the same device → `-EALREADY`; token
present and naming another owner → `-EBUSY`; otherwise
`setup_udp_tunnel_sock` installs the token and the ingress callback. -/
def ovpn_udp_socket_attach (st : SockState) (ovpn : Nat) : Int × SockState :=
  if st.protocol ≠ IPPROTO_UDP then (-EINVAL, st)
  else
    match st.userData with
    | some owner =>
        if owner = ovpn then (-EALREADY, st) else (-EBUSY, st)
    | none => (0, { st with userData := some ovpn, encapRecvInstalled := true })

/-! ### Concrete inputs used by counterexamples and witnesses -/

/-- A 12-byte datagram: 8-byte UDP header, then prefix byte `72`
(opcode `72 / 8 = 9 = OVPN_DATA_V2`, key id 0) and peer id bytes `0,0,7`. -/
def exSkbData : Skb := ⟨[1, 2, 3, 4, 5, 6, 7, 8, 72, 0, 0, 7]⟩

/-- A 12-byte datagram whose prefix byte is `0`: opcode `0 ≠ OVPN_DATA_V2`,
i.e. a control datagram. -/
def exSkbCtl : Skb := ⟨[1, 2, 3, 4, 5, 6, 7, 8, 0, 0, 0, 7]⟩

/-- A directory knowing exactly peer id 7 (handle 42), no transport-address
match, and a receive pipeline that reports the error `-5`. -/
def exEnvRecvErr : RecvEnv :=
  { ovpnObj := some 0,
    lookupId := fun n => if n = 7 then some 42 else none,
    lookupTransp := none,
    recvStatus := fun _ _ => -5 }

/-- Same directory, but the pipeline answers the positive status `3`
(deliver to the UDP application layer) and the source address matches
peer handle 5. -/
def exEnvRecvPos : RecvEnv :=
  { ovpnObj := some 0,
    lookupId := fun n => if n = 7 then some 42 else none,
    lookupTransp := some 5,
    recvStatus := fun _ _ => 3 }

/-- An environment with no transport-address match at all. -/
def exEnvNoPeer : RecvEnv :=
  { ovpnObj := some 0,
    lookupId := fun _ => none,
    lookupTransp := none,
    recvStatus := fun _ _ => 0 }

/-! ### Theorems for the claims -/

/-- C6: after a successful `attach(socket, device)`, attaching the same
(socket, device) pair again returns `-EALREADY` and leaves the socket state
(in particular the ownership token) unchanged. -/
theorem attach_idempotent (st : SockState) (d : Nat)
    (h : (ovpn_udp_socket_attach st d).1 = 0) :
    (ovpn_udp_socket_attach (ovpn_udp_socket_attach st d).2 d).1 =
      -EALREADY ∧
    (ovpn_udp_socket_attach (ovpn_udp_socket_attach st d).2 d).2 =
      (ovpn_udp_socket_attach st d).2 := by
  unfold ovpn_udp_socket_attach at h ⊢
  by_cases hp : st.protocol = IPPROTO_UDP
  · cases hud : st.userData with
    | some owner =>
        simp only [hud, hp] at h
        by_cases ho : owner = d <;> simp [ho, EALREADY, EBUSY] at h
    | none => simp [hud, hp]
  · simp [hp, EINVAL] at h

/-- C6 witness: a fresh UDP socket, device 1. -/
theorem attach_idempotent_witness :
    (ovpn_udp_socket_attach
      (ovpn_udp_socket_attach ⟨17, none, false⟩ 1).2 1).1 = -EALREADY ∧
    (ovpn_udp_socket_attach
      (ovpn_udp_socket_attach ⟨17, none, false⟩ 1).2 1).2 =
      (ovpn_udp_socket_attach ⟨17, none, false⟩ 1).2 :=
  attach_idempotent ⟨17, none, false⟩ 1 (by decide)

/-- C7: after a successful `attach(socket, deviceA)`, an attach of a
different device returns `-EBUSY`, leaves the state unchanged and deviceA
still owns the token; moreover every failing attach leaves the socket state
(token and callback) unchanged. -/
theorem attach_exclusive (st : SockState) (dA dB : Nat)
    (hA : (ovpn_udp_socket_attach st dA).1 = 0) (hne : dB ≠ dA) :
    ((ovpn_udp_socket_attach (ovpn_udp_socket_attach st dA).2 dB).1 =
       -EBUSY ∧
     (ovpn_udp_socket_attach (ovpn_udp_socket_attach st dA).2 dB).2 =
       (ovpn_udp_socket_attach st dA).2 ∧
     ((ovpn_udp_socket_attach st dA).2).userData = some dA) ∧
    ∀ st2 d, (ovpn_udp_socket_attach st2 d).1 ≠ 0 →
      (ovpn_udp_socket_attach st2 d).2 = st2 := by
  constructor
  · unfold ovpn_udp_socket_attach at hA ⊢
    by_cases hp : st.protocol = IPPROTO_UDP
    · cases hud : st.userData with
      | some owner =>
          simp only [hud, hp] at hA
          by_cases ho : owner = dA <;> simp [ho, EALREADY, EBUSY] at hA
      | none => simp [hud, hp, Ne.symm hne]
    · simp [hp, EINVAL] at hA
  · intro st2 d hfail
    unfold ovpn_udp_socket_attach at hfail ⊢
    by_cases hp : st2.protocol = IPPROTO_UDP
    · cases hud : st2.userData with
      | some owner => by_cases ho : owner = d <;> simp [hud, hp, ho]
      | none => simp [hud, hp] at hfail
    · simp [hp]

/-- C7 witness: device 1 then device 2 on a fresh UDP socket. -/
theorem attach_exclusive_witness :
    ((ovpn_udp_socket_attach
        (ovpn_udp_socket_attach ⟨17, none, false⟩ 1).2 2).1 = -EBUSY ∧
     (ovpn_udp_socket_attach
        (ovpn_udp_socket_attach ⟨17, none, false⟩ 1).2 2).2 =
       (ovpn_udp_socket_attach ⟨17, none, false⟩ 1).2 ∧
     ((ovpn_udp_socket_attach ⟨17, none, false⟩ 1).2).userData = some 1) ∧
    ∀ st2 d, (ovpn_udp_socket_attach st2 d).1 ≠ 0 →
      (ovpn_udp_socket_attach st2 d).2 = st2 :=
  attach_exclusive ⟨17, none, false⟩ 1 2 (by decide) (by decide)

/-- C9: a datagram whose first 4 bytes after the UDP header are not all
present is consumed (return 0) and freed, and neither kind of peer lookup is
performed. -/
theorem encap_recv_too_short (env : RecvEnv) (skb : Skb)
    (h : pskb_may_pull skb (udphdrSize + 4) = false) :
    (ovpn_udp_encap_recv env skb).ret = 0 ∧
    (ovpn_udp_encap_recv env skb).frees = 1 ∧
    (ovpn_udp_encap_recv env skb).idLookups = [] ∧
    (ovpn_udp_encap_recv env skb).transpLookups = 0 ∧
    (ovpn_udp_encap_recv env skb).peerGets = [] := by
  unfold ovpn_udp_encap_recv
  cases env.ovpnObj <;> simp [h]

/-- C9 witness: a 5-byte buffer (shorter than the 12-byte minimum). -/
theorem encap_recv_too_short_witness :
    (ovpn_udp_encap_recv exEnvNoPeer ⟨[1, 2, 3, 4, 5]⟩).ret = 0 ∧
    (ovpn_udp_encap_recv exEnvNoPeer ⟨[1, 2, 3, 4, 5]⟩).frees = 1 ∧
    (ovpn_udp_encap_recv exEnvNoPeer ⟨[1, 2, 3, 4, 5]⟩).idLookups = [] ∧
    (ovpn_udp_encap_recv exEnvNoPeer ⟨[1, 2, 3, 4, 5]⟩).transpLookups = 0 ∧
    (ovpn_udp_encap_recv exEnvNoPeer ⟨[1, 2, 3, 4, 5]⟩).peerGets = [] :=
  encap_recv_too_short exEnvNoPeer ⟨[1, 2, 3, 4, 5]⟩ (by decide)

/-- C10: `ovpn_udp_send_skb` issues the keepalive transmit-reset
notification exactly when the peer has a socket and a published binding —
independently of whether the subsequent transmit succeeds or fails. -/
theorem send_keepalive_iff (env : SendEnv) (skb : EgressSkb) :
    (ovpn_udp_send_skb env skb).keepaliveResets = 1 ↔
      env.peerSock.isSome ∧ env.peerBind.isSome := by
  unfold ovpn_udp_send_skb
  cases env.peerSock <;> cases env.peerBind <;> simp

/-- C8: for a pullable datagram carrying the `OVPN_DATA_V2` opcode, a known
peer identifier leads to exactly one `ovpn_recv` call with the resolved peer
handle and the buffer stripped of the UDP header; an unknown identifier
leads to a drop (return 0, buffer freed, no pipeline call) with a
diagnostic. -/
theorem encap_recv_data_v2 (env : RecvEnv) (skb : Skb) (o : Nat)
    (hovpn : env.ovpnObj = some o)
    (hpull : pskb_may_pull skb (udphdrSize + 4) = true)
    (hop : ovpn_opcode_from_skb skb udphdrSize = OVPN_DATA_V2) :
    (∀ p, env.lookupId (ovpn_peer_id_from_skb skb udphdrSize) = some p →
      (ovpn_udp_encap_recv env skb).recvCalls =
        [(p, __skb_pull skb udphdrSize)] ∧
      (ovpn_udp_encap_recv env skb).peerGets = [p]) ∧
    (env.lookupId (ovpn_peer_id_from_skb skb udphdrSize) = none →
      (ovpn_udp_encap_recv env skb).ret = 0 ∧
      (ovpn_udp_encap_recv env skb).frees = 1 ∧
      (ovpn_udp_encap_recv env skb).recvCalls = [] ∧
      (ovpn_udp_encap_recv env skb).logs = [Diag.dataFromUnknownPeer]) := by
  unfold ovpn_udp_encap_recv
  rw [hovpn]
  constructor
  · intro p hid
    simp only [hpull, hop, hid]
    unfold ovpn_recv_tail
    by_cases hs : env.recvStatus p (__skb_pull skb udphdrSize) < 0 <;>
      simp [hs]
  · intro hid
    simp [hpull, hop, hid]

/-- C8 witness: peer id 7 is known (handle 42) for the data datagram; for
the unknown-id half, an empty directory. -/
theorem encap_recv_data_v2_witness :
    ((∀ p, exEnvRecvPos.lookupId
        (ovpn_peer_id_from_skb exSkbData udphdrSize) = some p →
      (ovpn_udp_encap_recv exEnvRecvPos exSkbData).recvCalls =
        [(p, __skb_pull exSkbData udphdrSize)] ∧
      (ovpn_udp_encap_recv exEnvRecvPos exSkbData).peerGets = [p]) ∧
    (exEnvRecvPos.lookupId (ovpn_peer_id_from_skb exSkbData udphdrSize) =
        none →
      (ovpn_udp_encap_recv exEnvRecvPos exSkbData).ret = 0 ∧
      (ovpn_udp_encap_recv exEnvRecvPos exSkbData).frees = 1 ∧
      (ovpn_udp_encap_recv exEnvRecvPos exSkbData).recvCalls = [] ∧
      (ovpn_udp_encap_recv exEnvRecvPos exSkbData).logs =
        [Diag.dataFromUnknownPeer])) ∧
    ((∀ p, exEnvNoPeer.lookupId
        (ovpn_peer_id_from_skb exSkbData udphdrSize) = some p →
      (ovpn_udp_encap_recv exEnvNoPeer exSkbData).recvCalls =
        [(p, __skb_pull exSkbData udphdrSize)] ∧
      (ovpn_udp_encap_recv exEnvNoPeer exSkbData).peerGets = [p]) ∧
    (exEnvNoPeer.lookupId (ovpn_peer_id_from_skb exSkbData udphdrSize) =
        none →
      (ovpn_udp_encap_recv exEnvNoPeer exSkbData).ret = 0 ∧
      (ovpn_udp_encap_recv exEnvNoPeer exSkbData).frees = 1 ∧
      (ovpn_udp_encap_recv exEnvNoPeer exSkbData).recvCalls = [] ∧
      (ovpn_udp_encap_recv exEnvNoPeer exSkbData).logs =
        [Diag.dataFromUnknownPeer])) :=
  ⟨encap_recv_data_v2 exEnvRecvPos exSkbData 0 (by decide) (by decide)
      (by decide),
   encap_recv_data_v2 exEnvNoPeer exSkbData 0 (by decide) (by decide)
      (by decide)⟩

/-- C3: `ovpn_udp_send_skb` always disposes of the datagram exactly once —
either one transmit-primitive call consumes it, or the function frees it
itself — and it frees it exactly on the failing runs (final ret negative).
The hypothesis states the kernel guarantee that `PTR_ERR` of a failed IPv6
route lookup is a negative errno. -/
theorem send_skb_disposal (env : SendEnv) (skb : EgressSkb)
    (h6 : ∀ e, env.route6 = Except.error e → e < 0) :
    (ovpn_udp_send_skb env skb).frees +
      (ovpn_udp_send_skb env skb).transmits.length = 1 ∧
    ((ovpn_udp_send_skb env skb).ret < 0 ↔
      (ovpn_udp_send_skb env skb).frees = 1) := by
  unfold ovpn_udp_send_skb
  cases env.peerSock with
  | none => simp
  | some sk =>
    cases env.peerBind with
    | none => simp
    | some bind =>
      simp only
      unfold ovpn_udp_output ovpn_udp4_output ovpn_udp6_output
        ovpn_udp4_slow ovpn_udp6_slow
      by_cases h4 : bind.family = AF_INET
      · simp only [h4, if_true]
        cases hc : env.cached4 with
        | none =>
          cases hr : env.route4 with
          | error e => simp [EHOSTUNREACH]
          | ok v => cases v; simp
        | some v =>
          cases v with
          | mk rt saddr =>
            by_cases hcf : env.confirm4 saddr
            · simp [hcf]
            · simp only [hcf, if_false, Bool.false_eq_true]
              cases hr : env.route4 with
              | error e => simp [EHOSTUNREACH]
              | ok v2 => cases v2; simp
      · by_cases h6f : bind.family = AF_INET6
        · simp only [h4, h6f, if_false, if_true]
          cases hc : env.cached6 with
          | none =>
            cases hr : env.route6 with
            | error e =>
              have he := h6 e hr
              simp [AF_INET, AF_INET6, he, ne_of_lt he]
            | ok v => cases v; simp [AF_INET, AF_INET6]
          | some v =>
            cases v with
            | mk dst saddr =>
              by_cases hcf : env.chkAddr6 saddr
              · simp [AF_INET, AF_INET6, hcf]
              · simp only [hcf, if_false, Bool.false_eq_true]
                cases hr : env.route6 with
                | error e =>
                  have he := h6 e hr
                  simp [AF_INET, AF_INET6, he, ne_of_lt he]
                | ok v2 => cases v2; simp [AF_INET, AF_INET6]
        · simp [h4, h6f, EAFNOSUPPORT]

/-- C3 witness: IPv4 binding, no socket bound — the no-transport drop path. -/
theorem send_skb_disposal_witness :
    (0 : Int) < 3 ∧
    ((ovpn_udp_send_skb
        ⟨9, none, none, none, fun _ => false, Except.error (-113),
         none, fun _ => false, Except.error (-101)⟩
        ⟨none, 0, false, none⟩).frees +
      (ovpn_udp_send_skb
        ⟨9, none, none, none, fun _ => false, Except.error (-113),
         none, fun _ => false, Except.error (-101)⟩
        ⟨none, 0, false, none⟩).transmits.length = 1 ∧
     ((ovpn_udp_send_skb
        ⟨9, none, none, none, fun _ => false, Except.error (-113),
         none, fun _ => false, Except.error (-101)⟩
        ⟨none, 0, false, none⟩).ret < 0 ↔
      (ovpn_udp_send_skb
        ⟨9, none, none, none, fun _ => false, Except.error (-113),
         none, fun _ => false, Except.error (-101)⟩
        ⟨none, 0, false, none⟩).frees = 1)) :=
  ⟨by decide,
   send_skb_disposal
     ⟨9, none, none, none, fun _ => false, Except.error (-113),
      none, fun _ => false, Except.error (-101)⟩
     ⟨none, 0, false, none⟩
     (fun e he => by
        simp only [Except.error.injEq] at he
        simp [← he])⟩

/-- C5: in a `send` over an IPv4 binding, when there is no cached route or
the cached entry's recorded source address fails `inet_confirm_addr`, the
cache is reset (exactly one invalidation) and any transmit uses the route
and source address of the fresh `ip_route_output_flow` lookup — never the
unconfirmed cached ones; a failed fresh lookup transmits nothing and yields
`-EHOSTUNREACH`. -/
theorem send_no_stale_route (env : SendEnv) (skb : EgressSkb) (sk : Sock)
    (bind : Bind)
    (hsock : env.peerSock = some sk)
    (hbind : env.peerBind = some bind)
    (hfam : bind.family = AF_INET)
    (hstale : env.cached4 = none ∨
      ∃ rt saddr, env.cached4 = some (rt, saddr) ∧
        env.confirm4 saddr = false) :
    (ovpn_udp_send_skb env skb).cacheResets = 1 ∧
    (match env.route4 with
     | Except.error _ =>
         (ovpn_udp_send_skb env skb).transmits = [] ∧
         (ovpn_udp_send_skb env skb).ret = -EHOSTUNREACH
     | Except.ok (rt, saddr) =>
         (ovpn_udp_send_skb env skb).transmits.map
             (fun x => (x.rt, x.saddr)) = [(rt, saddr)] ∧
         (ovpn_udp_send_skb env skb).cacheSets = [(rt, saddr)]) := by
  unfold ovpn_udp_send_skb ovpn_udp_output ovpn_udp4_output ovpn_udp4_slow
  rw [hsock, hbind]
  simp only [hfam, if_true]
  rcases hstale with hnone | ⟨rt, saddr, hc, hcf⟩
  · rw [hnone]
    cases hr : env.route4 with
    | error e => simp
    | ok v => cases v; simp
  · rw [hc]
    simp only [hcf, Bool.false_eq_true, if_false]
    cases hr : env.route4 with
    | error e => simp
    | ok v => cases v; simp

/-- C5 witness: cached route (77, source 10) whose source fails
confirmation; the fresh lookup answers (88, source 11). -/
theorem send_no_stale_route_witness :
    (ovpn_udp_send_skb
        ⟨9, some ⟨1000, 17, 0, 0, false⟩, some ⟨2, 333, 1194, 0⟩,
         some (77, 10), fun _ => false, Except.ok (88, 11),
         none, fun _ => false, Except.error (-101)⟩
        ⟨none, 0, false, none⟩).cacheResets = 1 ∧
    (match (Except.ok (88, 11) : Except Int (Nat × Nat)) with
     | Except.error _ =>
         (ovpn_udp_send_skb
            ⟨9, some ⟨1000, 17, 0, 0, false⟩, some ⟨2, 333, 1194, 0⟩,
             some (77, 10), fun _ => false, Except.ok (88, 11),
             none, fun _ => false, Except.error (-101)⟩
            ⟨none, 0, false, none⟩).transmits = [] ∧
         (ovpn_udp_send_skb
            ⟨9, some ⟨1000, 17, 0, 0, false⟩, some ⟨2, 333, 1194, 0⟩,
             some (77, 10), fun _ => false, Except.ok (88, 11),
             none, fun _ => false, Except.error (-101)⟩
            ⟨none, 0, false, none⟩).ret = -EHOSTUNREACH
     | Except.ok (rt, saddr) =>
         ((ovpn_udp_send_skb
            ⟨9, some ⟨1000, 17, 0, 0, false⟩, some ⟨2, 333, 1194, 0⟩,
             some (77, 10), fun _ => false, Except.ok (88, 11),
             none, fun _ => false, Except.error (-101)⟩
            ⟨none, 0, false, none⟩).transmits.map
             (fun x => (x.rt, x.saddr)) = [(rt, saddr)] ∧
         (ovpn_udp_send_skb
            ⟨9, some ⟨1000, 17, 0, 0, false⟩, some ⟨2, 333, 1194, 0⟩,
             some (77, 10), fun _ => false, Except.ok (88, 11),
             none, fun _ => false, Except.error (-101)⟩
            ⟨none, 0, false, none⟩).cacheSets = [(rt, saddr)])) :=
  send_no_stale_route
    ⟨9, some ⟨1000, 17, 0, 0, false⟩, some ⟨2, 333, 1194, 0⟩,
     some (77, 10), fun _ => false, Except.ok (88, 11),
     none, fun _ => false, Except.error (-101)⟩
    ⟨none, 0, false, none⟩ ⟨1000, 17, 0, 0, false⟩ ⟨2, 333, 1194, 0⟩
    rfl rfl rfl (Or.inr ⟨77, 10, rfl, rfl⟩)

/-- C2: reference-count balance.  On every run of `ovpn_udp_encap_recv`, the
number of explicit `ovpn_peer_put` releases plus the number of hand-offs the
pipeline accepted (an `ovpn_recv` call with nonnegative status — per spec §6
the pipeline then owns the reference; on a negative status the caller's drop
path performs the release itself) equals the number of peer handles obtained
from the directory; and `ovpn_udp_send_skb` performs no peer-directory
operation at all, so it holds vacuously for `send`. -/
theorem peer_ref_balance (env : RecvEnv) (skb : Skb) :
    ((ovpn_udp_encap_recv env skb).peerPuts.length +
      ((ovpn_udp_encap_recv env skb).recvCalls.filter
        (fun pc => decide (0 ≤ env.recvStatus pc.1 pc.2))).length =
      (ovpn_udp_encap_recv env skb).peerGets.length) ∧
    ∀ senv eskb, (ovpn_udp_send_skb senv eskb).peerDirOps = 0 := by
  constructor
  · unfold ovpn_udp_encap_recv ovpn_recv_tail
    cases env.ovpnObj with
    | none => simp
    | some o =>
      by_cases hpull : pskb_may_pull skb (udphdrSize + 4) = true
      · simp only [hpull, Bool.true_eq_false, not_true, if_false, if_neg,
          not_false_iff]
        by_cases hop : ovpn_opcode_from_skb skb udphdrSize = OVPN_DATA_V2
        · simp only [hop, if_true]
          cases env.lookupId (ovpn_peer_id_from_skb skb udphdrSize) with
          | none => simp
          | some peer =>
            by_cases hs :
                env.recvStatus peer (__skb_pull skb udphdrSize) < 0 <;>
              simp [hs, not_le.mpr, Int.not_lt.mp]
        · simp only [hop, if_false]
          cases env.lookupTransp with
          | none => simp
          | some peer =>
            by_cases hs :
                env.recvStatus peer (__skb_pull skb udphdrSize) < 0 <;>
              simp [hs, not_le.mpr, Int.not_lt.mp]
      · simp [hpull]
  · intro senv eskb
    unfold ovpn_udp_send_skb
    cases senv.peerSock <;> [skip; cases senv.peerBind] <;> simp

/-- Helper: full characterisation of `ovpn_recv_tail`. -/
theorem ovpn_recv_tail_spec (env : RecvEnv) (skb : Skb) (idL : List Nat)
    (tL peer : Nat) :
    (ovpn_recv_tail env skb idL tL peer).recvCalls =
      [(peer, __skb_pull skb udphdrSize)] ∧
    (ovpn_recv_tail env skb idL tL peer).peerGets = [peer] ∧
    (ovpn_recv_tail env skb idL tL peer).skbFinal =
      __skb_pull skb udphdrSize ∧
    (0 ≤ env.recvStatus peer (__skb_pull skb udphdrSize) →
      (ovpn_recv_tail env skb idL tL peer).ret =
        env.recvStatus peer (__skb_pull skb udphdrSize) ∧
      (ovpn_recv_tail env skb idL tL peer).frees = 0 ∧
      (ovpn_recv_tail env skb idL tL peer).peerPuts = []) ∧
    (env.recvStatus peer (__skb_pull skb udphdrSize) < 0 →
      (ovpn_recv_tail env skb idL tL peer).ret = 0 ∧
      (ovpn_recv_tail env skb idL tL peer).frees = 1 ∧
      (ovpn_recv_tail env skb idL tL peer).peerPuts = [peer]) := by
  unfold ovpn_recv_tail
  by_cases hs : env.recvStatus peer (__skb_pull skb udphdrSize) < 0
  · exact ⟨by simp [hs], by simp [hs], by simp [hs],
      fun hx => absurd hx (not_le.mpr hs), fun _ => by simp [hs]⟩
  · exact ⟨by simp [hs], by simp [hs], by simp [hs],
      fun _ => by simp [hs], fun hx => absurd hx hs⟩

/-- Helper: every run of the ingress demultiplexer is either a hand-off
(`ovpn_recv_tail`), a drop (consumed: ret 0, one free, buffer untouched), or
the deliver-normally path (ret 1, no free, buffer untouched). -/
theorem encap_recv_trace_cases (env : RecvEnv) (skb : Skb) :
    (∃ idL tL peer,
      ovpn_udp_encap_recv env skb = ovpn_recv_tail env skb idL tL peer) ∨
    ((ovpn_udp_encap_recv env skb).recvCalls = [] ∧
     (ovpn_udp_encap_recv env skb).frees = 1 ∧
     (ovpn_udp_encap_recv env skb).ret = 0 ∧
     (ovpn_udp_encap_recv env skb).skbFinal = skb) ∨
    ((ovpn_udp_encap_recv env skb).recvCalls = [] ∧
     (ovpn_udp_encap_recv env skb).frees = 0 ∧
     (ovpn_udp_encap_recv env skb).ret = 1 ∧
     (ovpn_udp_encap_recv env skb).skbFinal = skb) := by
  unfold ovpn_udp_encap_recv
  cases henv : env.ovpnObj with
  | none => right; left; simp
  | some o =>
    by_cases hpull : pskb_may_pull skb (udphdrSize + 4) = true
    · by_cases hop : ovpn_opcode_from_skb skb udphdrSize = OVPN_DATA_V2
      · cases hid : env.lookupId (ovpn_peer_id_from_skb skb udphdrSize) with
        | none => right; left; simp [hpull, hop, hid]
        | some peer =>
          left
          exact ⟨[ovpn_peer_id_from_skb skb udphdrSize], 0, peer,
            by simp [hpull, hop, hid]⟩
      · cases hid : env.lookupTransp with
        | none => right; right; simp [hpull, hop, hid]
        | some peer => left; exact ⟨[], 1, peer, by simp [hpull, hop, hid]⟩
    · right; left; simp [hpull]

/-- C1 counterexample: the directory knows peer id 7 (handle 42) and the
receive pipeline returns `-5` for the DATA_V2 datagram, yet
`ovpn_udp_encap_recv` returns `0`, not the pipeline's value: a negative
pipeline status is not propagated verbatim. -/
theorem encap_recv_not_verbatim :
    (ovpn_udp_encap_recv exEnvRecvErr exSkbData).recvCalls =
      [(42, __skb_pull exSkbData udphdrSize)] ∧
    exEnvRecvErr.recvStatus 42 (__skb_pull exSkbData udphdrSize) = -5 ∧
    (ovpn_udp_encap_recv exEnvRecvErr exSkbData).ret = 0 ∧
    (ovpn_udp_encap_recv exEnvRecvErr exSkbData).ret ≠
      exEnvRecvErr.recvStatus 42 (__skb_pull exSkbData udphdrSize) := by
  decide

/-- C1 (amended): when the receive pipeline is invoked and returns a
nonnegative status, `ovpn_udp_encap_recv` returns exactly that status; a
negative pipeline status is instead converted into a drop: the peer
reference is released, the buffer freed, and `0` (consumed) returned. -/
theorem encap_recv_status_propagation (env : RecvEnv) (skb : Skb) (p : Nat)
    (s : Skb)
    (hcall : (ovpn_udp_encap_recv env skb).recvCalls = [(p, s)]) :
    (0 ≤ env.recvStatus p s →
      (ovpn_udp_encap_recv env skb).ret = env.recvStatus p s) ∧
    (env.recvStatus p s < 0 →
      (ovpn_udp_encap_recv env skb).ret = 0 ∧
      (ovpn_udp_encap_recv env skb).frees = 1 ∧
      (ovpn_udp_encap_recv env skb).peerPuts = [p]) := by
  rcases encap_recv_trace_cases env skb with
    ⟨idL, tL, peer, heq⟩ | ⟨hrc, -, -, -⟩ | ⟨hrc, -, -, -⟩
  · rw [heq] at hcall ⊢
    obtain ⟨hrc, -, -, hpos, hneg⟩ := ovpn_recv_tail_spec env skb idL tL peer
    rw [hrc] at hcall
    simp only [List.cons.injEq, Prod.mk.injEq, and_true] at hcall
    obtain ⟨hp, hsk⟩ := hcall
    subst hp
    subst hsk
    exact ⟨fun hx => (hpos hx).1, fun hx => hneg hx⟩
  · rw [hrc] at hcall
    exact absurd hcall (by simp)
  · rw [hrc] at hcall
    exact absurd hcall (by simp)

/-- C1 witness: pipeline status `3` for the DATA_V2 datagram of peer 42 is
returned verbatim. -/
theorem encap_recv_status_propagation_witness :
    (0 ≤ exEnvRecvPos.recvStatus 42 (__skb_pull exSkbData udphdrSize) →
      (ovpn_udp_encap_recv exEnvRecvPos exSkbData).ret =
        exEnvRecvPos.recvStatus 42 (__skb_pull exSkbData udphdrSize)) ∧
    (exEnvRecvPos.recvStatus 42 (__skb_pull exSkbData udphdrSize) < 0 →
      (ovpn_udp_encap_recv exEnvRecvPos exSkbData).ret = 0 ∧
      (ovpn_udp_encap_recv exEnvRecvPos exSkbData).frees = 1 ∧
      (ovpn_udp_encap_recv exEnvRecvPos exSkbData).peerPuts = [42]) :=
  encap_recv_status_propagation exEnvRecvPos exSkbData 42
    (__skb_pull exSkbData udphdrSize) (by decide)

/-- C4 counterexample: a control datagram from a source matching peer 5,
with the pipeline answering the positive status `3`: the function returns
`3` (a "not consumed" outcome) yet the buffer has been mutated — the UDP
header was stripped before the pipeline call. -/
theorem encap_recv_nonzero_mutated :
    (ovpn_udp_encap_recv exEnvRecvPos exSkbCtl).ret = 3 ∧
    (ovpn_udp_encap_recv exEnvRecvPos exSkbCtl).skbFinal ≠ exSkbCtl := by
  decide

/-- C4 (amended): on a nonzero return, `ovpn_udp_encap_recv` never freed the
buffer; if the receive pipeline was not invoked (the unknown-source control
path) the buffer is also unmutated and the return value is 1, while if the
pipeline was invoked (and answered a positive status) the buffer had its
UDP header stripped and was handed to the pipeline. -/
theorem encap_recv_nonzero_buffer (env : RecvEnv) (skb : Skb)
    (h : (ovpn_udp_encap_recv env skb).ret ≠ 0) :
    (ovpn_udp_encap_recv env skb).frees = 0 ∧
    ((ovpn_udp_encap_recv env skb).recvCalls = [] →
      (ovpn_udp_encap_recv env skb).skbFinal = skb ∧
      (ovpn_udp_encap_recv env skb).ret = 1) ∧
    ((ovpn_udp_encap_recv env skb).recvCalls ≠ [] →
      (ovpn_udp_encap_recv env skb).skbFinal =
        __skb_pull skb udphdrSize ∧
      0 < (ovpn_udp_encap_recv env skb).ret) := by
  rcases encap_recv_trace_cases env skb with
    ⟨idL, tL, peer, heq⟩ | ⟨hrc, hf, hr, hsf⟩ | ⟨hrc, hf, hr, hsf⟩
  · rw [heq] at h ⊢
    obtain ⟨hrc, -, hsf, hpos, hneg⟩ := ovpn_recv_tail_spec env skb idL tL peer
    by_cases hs : env.recvStatus peer (__skb_pull skb udphdrSize) < 0
    · exact absurd (hneg hs).1 h
    · obtain ⟨hr1, hf1, -⟩ := hpos (not_lt.mp hs)
      have hle := not_lt.mp hs
      refine ⟨hf1, fun hempty => absurd (hrc ▸ hempty) (by simp),
        fun _ => ⟨hsf, ?_⟩⟩
      omega
  · exact absurd hr h
  · exact ⟨hf, fun _ => ⟨hsf, hr⟩, fun hne => absurd hrc hne⟩

/-- C4 witness: control datagram matching no peer — return 1, buffer kept
intact. -/
theorem encap_recv_nonzero_buffer_witness :
    (ovpn_udp_encap_recv exEnvNoPeer exSkbCtl).frees = 0 ∧
    ((ovpn_udp_encap_recv exEnvNoPeer exSkbCtl).recvCalls = [] →
      (ovpn_udp_encap_recv exEnvNoPeer exSkbCtl).skbFinal = exSkbCtl ∧
      (ovpn_udp_encap_recv exEnvNoPeer exSkbCtl).ret = 1) ∧
    ((ovpn_udp_encap_recv exEnvNoPeer exSkbCtl).recvCalls ≠ [] →
      (ovpn_udp_encap_recv exEnvNoPeer exSkbCtl).skbFinal =
        __skb_pull exSkbCtl udphdrSize ∧
      0 < (ovpn_udp_encap_recv exEnvNoPeer exSkbCtl).ret) :=
  encap_recv_nonzero_buffer exEnvNoPeer exSkbCtl (by decide)

end OvpnDco
